import Mathlib

/-!
Verification of the FluxADM AI enrichment pipeline (`app/services/ai_processor.py`)
against its natural-language specification.

The Python strings handled by the pipeline are modelled as `List Char`.
JSON values decoded by `json.loads` are modelled by the inductive `JsonVal`;
the decoder itself (`json.loads`, an external library) is a parameter of type
`Loads := Str → Option JsonVal` in every statement that needs it.

Python coercions applied to decoded JSON fields (`float(...)`, `int(...)`,
string slicing, `.lower()`) are modelled as `Option`-valued functions where
`none` stands for a raised-and-caught conversion error.  The source catches
`(json.JSONDecodeError, ValueError, KeyError)` around each parse; conversion
errors on non-numeric / non-string payloads are conservatively sent to the
same caught branch here.  No claim below depends on that corner.
-/

namespace FluxADM

/-- Python strings, as lists of characters. -/
abbrev Str := List Char

/-- Shorthand turning a Lean string literal into the `Str` model. -/
def lit (s : String) : Str := s.toList

/-- Python `str.lower()`. -/
def pyLower (s : Str) : Str := s.map Char.toLower

/-- Python `str.strip()`: drop whitespace from both ends. -/
def pyStrip (s : Str) : Str :=
  (((s.dropWhile Char.isWhitespace).reverse).dropWhile Char.isWhitespace).reverse

/-- Python `pat in s` (substring membership). -/
def strContains (s pat : Str) : Bool :=
  match s with
  | [] => pat.isEmpty
  | _ :: rest => pat.isPrefixOf s || strContains rest pat

/-- Number of positions of `s` at which `pat` occurs (occurrence count,
used only to state what the specification's "counts occurrences" reading
would compute; the source itself counts keywords, not occurrences). -/
def countOcc (pat : Str) : Str → Nat
  | [] => 0
  | c :: rest => (if pat.isPrefixOf (c :: rest) then 1 else 0) + countOcc pat rest

/-- Python `str.find(c)` for a single character, as an `Option` index
(`none` models the -1 return). -/
def findChar : Str → Char → Option Nat
  | [], _ => none
  | c :: rest, t => if c = t then some 0 else (findChar rest t).map (· + 1)

/-- Python `str.rfind(c)` for a single character, as an `Option` index. -/
def rfindChar : Str → Char → Option Nat
  | [], _ => none
  | c :: rest, t =>
    match rfindChar rest t with
    | some i => some (i + 1)
    | none => if c = t then some 0 else none

/-- Decoded JSON values (`json.loads` output). -/
inductive JsonVal where
  | jstr (s : Str)
  | jnum (q : ℚ)
  | jbool (b : Bool)
  | jnull
  | jarr (xs : List JsonVal)
  | jobj (fields : List (String × JsonVal))

/-- Abstract `json.loads`: decoding a candidate JSON document. -/
abbrev Loads := Str → Option JsonVal

/-- Python `dict.get(key)` on a decoded object (keys are unique in a dict,
so first match suffices). -/
def jsonLookup : List (String × JsonVal) → String → Option JsonVal
  | [], _ => none
  | (k, v) :: rest, key => if k = key then some v else jsonLookup rest key

/-- `json_data.get(key, default)` with the raw value kept as-is. -/
def getValOr (fs : List (String × JsonVal)) (key : String) (dflt : JsonVal) : JsonVal :=
  (jsonLookup fs key).getD dflt

/-- A decoded value usable as a Python `dict`; `.get` on anything else raises. -/
def asObjFields : JsonVal → Option (List (String × JsonVal))
  | .jobj fs => some fs
  | _ => none

/-- `json_data.get(key, default)` where the code then uses the value as a
string (`.lower()`, slicing); a non-string payload raises. -/
def getStrOr (fs : List (String × JsonVal)) (key : String) (dflt : Str) : Option Str :=
  match jsonLookup fs key with
  | none => some dflt
  | some (.jstr s) => some s
  | some _ => none

/-- Python `int(q)` on a number: truncation toward zero. -/
def ratTrunc (q : ℚ) : Int := if 0 ≤ q then ⌊q⌋ else ⌈q⌉

/-- `int(json_data.get(key, default))`. -/
def getIntOr (fs : List (String × JsonVal)) (key : String) (dflt : Int) : Option Int :=
  match jsonLookup fs key with
  | none => some dflt
  | some (.jnum q) => some (ratTrunc q)
  | some (.jbool b) => some (if b then 1 else 0)
  | some _ => none

/-- `float(json_data.get(key, default))`. -/
def getRatOr (fs : List (String × JsonVal)) (key : String) (dflt : ℚ) : Option ℚ :=
  match jsonLookup fs key with
  | none => some dflt
  | some (.jnum q) => some q
  | some (.jbool b) => some (if b then 1 else 0)
  | some _ => none

/-- `json_data.get(key, [])` used as a list. -/
def getListOr (fs : List (String × JsonVal)) (key : String) : Option (List JsonVal) :=
  match jsonLookup fs key with
  | none => some []
  | some (.jarr xs) => some xs
  | some _ => none

/-- Python truthiness, for `bool(json_data.get(...))` (total). -/
def pyTruthy : JsonVal → Bool
  | .jstr s => !s.isEmpty
  | .jnum q => decide (q ≠ 0)
  | .jbool b => b
  | .jnull => false
  | .jarr xs => !xs.isEmpty
  | .jobj fs => !fs.isEmpty

/-- Valid values of `ChangeRequestCategory` (`app/models/change_request.py`). -/
def validCategories : List Str :=
  [lit ("emergency"), lit ("standard"), lit ("normal"), lit ("enhancement"),
   lit ("infrastructure"), lit ("security"), lit ("maintenance"), lit ("rollback")]

/-- Valid values of `ChangeRequestPriority`. -/
def validPriorities : List Str :=
  [lit ("low"), lit ("medium"), lit ("high"), lit ("critical")]

/-- Valid values of `ChangeRequestRisk`. -/
def validRiskLevels : List Str :=
  [lit ("low"), lit ("medium"), lit ("high")]

/-- `any(word in s for word in kws)`. -/
def containsAnyKw (s : Str) (kws : List Str) : Bool :=
  kws.any (fun kw => strContains s kw)

/-- `AIProcessor._normalize_category`. -/
def normalize_category (c : Str) : Str :=
  let cl := pyStrip (pyLower c)
  if cl ∈ validCategories then cl
  else if containsAnyKw cl [lit ("emergency"), lit ("urgent"), lit ("critical")] then lit ("emergency")
  else if containsAnyKw cl [lit ("standard"), lit ("routine")] then lit ("standard")
  else if containsAnyKw cl [lit ("enhancement"), lit ("feature"), lit ("improvement")] then lit ("enhancement")
  else if containsAnyKw cl [lit ("infrastructure"), lit ("hardware"), lit ("network")] then lit ("infrastructure")
  else if containsAnyKw cl [lit ("security"), lit ("patch"), lit ("vulnerability")] then lit ("security")
  else if containsAnyKw cl [lit ("maintenance"), lit ("update"), lit ("upgrade")] then lit ("maintenance")
  else if containsAnyKw cl [lit ("rollback"), lit ("revert"), lit ("back")] then lit ("rollback")
  else lit ("normal")

/-- `AIProcessor._normalize_priority`. -/
def normalize_priority (p : Str) : Str :=
  let pl := pyStrip (pyLower p)
  if pl ∈ validPriorities then pl
  else if containsAnyKw pl [lit ("critical"), lit ("urgent"), lit ("emergency")] then lit ("critical")
  else if containsAnyKw pl [lit ("high"), lit ("important")] then lit ("high")
  else if containsAnyKw pl [lit ("low"), lit ("minor")] then lit ("low")
  else lit ("medium")

/-- `AIProcessor._normalize_risk_level`. -/
def normalize_risk_level (r : Str) : Str :=
  let rl := pyStrip (pyLower r)
  if rl ∈ validRiskLevels then rl else lit ("medium")

/-- The dictionary `_call_openai` / `_call_anthropic` return: raw reply text
plus provenance and token usage. -/
structure TransportResult where
  response : Str
  model : String
  provider : String
  input_tokens : Nat
  output_tokens : Nat
  total_tokens : Nat

/-- The categorization result dictionary (`_parse_categorization_response`
success shape / `_rule_based_categorization`). -/
structure CategorizationResult where
  category : Str
  priority : Str
  title : Str
  description : Str
  affected_systems : List JsonVal
  confidence : ℚ
  reasoning : JsonVal
  provider : String
  model : String
  tokens_used : Nat

/-- The risk-assessment result dictionary. -/
structure RiskAssessmentResult where
  risk_level : Str
  risk_score : Int
  impact_score : Int
  probability_score : Int
  risk_factors : List JsonVal
  mitigation_recommendations : List JsonVal
  confidence : ℚ
  requires_additional_review : Bool
  provider : String
  model : String
  tokens_used : Nat

/-- The quality-check result dictionary. -/
structure QualityCheckResult where
  quality_score : Int
  quality_issues : List JsonVal
  completeness_check : JsonVal
  compliance_flags : List JsonVal
  confidence : ℚ
  overall_assessment : JsonVal
  provider : String
  model : String
  tokens_used : Nat

/-- `AIProcessor._rule_based_categorization`. -/
def rule_based_categorization (content : Str) : CategorizationResult :=
  let cl := pyLower content
  let cp : Str × Str :=
    if containsAnyKw cl [lit ("emergency"), lit ("critical"), lit ("outage"), lit ("down")] then
      (lit ("emergency"), lit ("critical"))
    else if containsAnyKw cl [lit ("security"), lit ("patch"), lit ("vulnerability")] then
      (lit ("security"), lit ("high"))
    else if containsAnyKw cl [lit ("enhancement"), lit ("feature"), lit ("improvement")] then
      (lit ("enhancement"), lit ("medium"))
    else
      (lit ("normal"), lit ("medium"))
  { category := cp.1
    priority := cp.2
    title := if content.length > 100 then content.take 100 ++ lit ("...") else content
    description := if content.length > 500 then content.take 500 ++ lit ("...") else content
    affected_systems := []
    confidence := 3/10
    reasoning := .jstr (lit ("Automatic rule-based categorization (AI services unavailable)"))
    provider := "fallback"
    model := "rule-based"
    tokens_used := 0 }

/-- High-risk keyword list of `_rule_based_risk_assessment`. -/
def high_risk_keywords : List Str :=
  [lit ("production"), lit ("database"), lit ("critical"), lit ("customer"), lit ("revenue")]

/-- Medium-risk keyword list of `_rule_based_risk_assessment`. -/
def medium_risk_keywords : List Str :=
  [lit ("system"), lit ("application"), lit ("service"), lit ("integration")]

/-- `AIProcessor._rule_based_risk_assessment`.  Note
`sum(1 for keyword in kws if keyword in content_lower)` counts the listed
keywords that occur at least once (membership), not occurrences. -/
def rule_based_risk_assessment (content : Str) : RiskAssessmentResult :=
  let cl := pyLower content
  let high_risk_count := (high_risk_keywords.filter (fun kw => strContains cl kw)).length
  let medium_risk_count := (medium_risk_keywords.filter (fun kw => strContains cl kw)).length
  let ls : Str × Int :=
    if 2 ≤ high_risk_count then (lit ("high"), 6)
    else if 1 ≤ high_risk_count ∨ 3 ≤ medium_risk_count then (lit ("medium"), 4)
    else (lit ("low"), 2)
  { risk_level := ls.1
    risk_score := ls.2
    impact_score := 2
    probability_score := 2
    risk_factors :=
      [.jobj [("type", .jstr (lit ("general"))),
              ("description", .jstr (lit ("Rule-based assessment"))),
              ("severity", .jstr (lit ("medium")))]]
    mitigation_recommendations := [.jstr (lit ("Please perform manual risk assessment"))]
    confidence := 3/10
    requires_additional_review := true
    provider := "fallback"
    model := "rule-based"
    tokens_used := 0 }

/-- Required-section keywords of `_rule_based_quality_check`. -/
def required_sections : List Str :=
  [lit ("business"), lit ("technical"), lit ("risk"), lit ("testing"), lit ("rollback")]

/-- `AIProcessor._rule_based_quality_check`. -/
def rule_based_quality_check (content : Str) : QualityCheckResult :=
  let score1 : Int := if content.length < 100 then 50 - 20 else 50
  let issues1 : List JsonVal :=
    if content.length < 100 then
      [.jobj [("type", .jstr (lit ("insufficient_detail"))),
              ("severity", .jstr (lit ("high"))),
              ("description", .jstr (lit ("Document appears too brief"))),
              ("location", .jstr (lit ("overall"))),
              ("recommendation", .jstr (lit ("Provide more detailed information")))]]
    else []
  let missing := required_sections.filter (fun sec => !strContains (pyLower content) sec)
  let score2 : Int := score1 - 5 * missing.length
  let issues2 : List JsonVal :=
    issues1 ++
      (if missing.isEmpty then []
       else [.jobj [("type", .jstr (lit ("missing_requirements"))),
                    ("severity", .jstr (lit ("medium"))),
                    ("description", .jstr (lit ("Missing sections: ") ++ List.intercalate (lit (", ")) missing)),
                    ("location", .jstr (lit ("document structure"))),
                    ("recommendation", .jstr (lit ("Add missing sections")))]])
  { quality_score := max 0 (min 100 score2)
    quality_issues := issues2
    completeness_check :=
      .jobj [("business_justification", .jstr (lit ("incomplete"))),
             ("technical_details", .jstr (lit ("incomplete"))),
             ("implementation_plan", .jstr (lit ("incomplete"))),
             ("rollback_plan", .jstr (lit ("incomplete"))),
             ("testing_plan", .jstr (lit ("incomplete")))]
    compliance_flags := [.jstr (lit ("Manual review required"))]
    confidence := 3/10
    overall_assessment := .jstr (lit ("Basic rule-based quality assessment completed"))
    provider := "fallback"
    model := "rule-based"
    tokens_used := 0 }

/-- Locating the candidate JSON substring: `response_text.find(chr(123))`,
`response_text.rfind(chr(125)) + 1`, and the slice between them, guarded by
`json_start >= 0 and json_end > json_start`. -/
def extract_json_span (s : Str) : Option Str :=
  match findChar s '\x7b', rfindChar s '\x7d' with
  | some i, some j => if i < j + 1 then some ((s.drop i).take (j + 1 - i)) else none
  | _, _ => none

/-- Field extraction of `_parse_categorization_response` on the decoded
object (`none` models a raised-and-caught conversion error). -/
def parse_categorization_json (fs : List (String × JsonVal)) (tr : TransportResult) :
    Option CategorizationResult :=
  match getStrOr fs ("category") (lit ("normal")), getStrOr fs ("priority") (lit ("medium")),
      getStrOr fs ("title") (lit ("Untitled Change Request")), getStrOr fs ("description") [],
      getListOr fs ("affected_systems"), getRatOr fs ("confidence") (1/2) with
  | some cat, some pri, some title, some desc, some aff, some conf =>
    some
      { category := normalize_category cat
        priority := normalize_priority pri
        title := title.take 200
        description := desc.take 1000
        affected_systems := aff.take 10
        confidence := min (max conf 0) 1
        reasoning := getValOr fs ("reasoning") (.jstr [])
        provider := tr.provider
        model := tr.model
        tokens_used := tr.total_tokens }
  | _, _, _, _, _, _ => none

/-- Field extraction of `_parse_risk_assessment_response` on the decoded object. -/
def parse_risk_assessment_json (fs : List (String × JsonVal)) (tr : TransportResult) :
    Option RiskAssessmentResult :=
  match getStrOr fs ("risk_level") (lit ("medium")), getIntOr fs ("risk_score") 4,
      getIntOr fs ("impact_score") 2, getIntOr fs ("probability_score") 2,
      getListOr fs ("risk_factors"), getListOr fs ("mitigation_recommendations"),
      getRatOr fs ("confidence") (1/2) with
  | some lvl, some rs, some imp, some prob, some rf, some mit, some conf =>
    some
      { risk_level := normalize_risk_level lvl
        risk_score := max 1 (min 9 rs)
        impact_score := max 1 (min 3 imp)
        probability_score := max 1 (min 3 prob)
        risk_factors := rf.take 20
        mitigation_recommendations := mit.take 10
        confidence := min (max conf 0) 1
        requires_additional_review := pyTruthy (getValOr fs ("requires_additional_review") (.jbool false))
        provider := tr.provider
        model := tr.model
        tokens_used := tr.total_tokens }
  | _, _, _, _, _, _, _ => none

/-- Field extraction of `_parse_quality_check_response` on the decoded object. -/
def parse_quality_check_json (fs : List (String × JsonVal)) (tr : TransportResult) :
    Option QualityCheckResult :=
  match getIntOr fs ("quality_score") 50, getListOr fs ("quality_issues"),
      getListOr fs ("compliance_flags"), getRatOr fs ("confidence") (1/2) with
  | some qs, some qi, some cf, some conf =>
    some
      { quality_score := max 0 (min 100 qs)
        quality_issues := qi.take 50
        completeness_check := getValOr fs ("completeness_check") (.jobj [])
        compliance_flags := cf.take 20
        confidence := min (max conf 0) 1
        overall_assessment := getValOr fs ("overall_assessment") (.jstr [])
        provider := tr.provider
        model := tr.model
        tokens_used := tr.total_tokens }
  | _, _, _, _ => none

/-- `AIProcessor._parse_categorization_response`: locate the JSON span,
decode it, extract fields; on any failure fall back to
`_rule_based_categorization(result.get(chr(114) ...))` applied to the raw
response text (the source calls the rule fallback directly; it does not
return a sentinel). -/
def parse_categorization_response (loads : Loads) (tr : TransportResult) : CategorizationResult :=
  match extract_json_span tr.response with
  | some sub =>
    match loads sub with
    | some j =>
      match asObjFields j with
      | some fs =>
        match parse_categorization_json fs tr with
        | some r => r
        | none => rule_based_categorization tr.response
      | none => rule_based_categorization tr.response
    | none => rule_based_categorization tr.response
  | none => rule_based_categorization tr.response

/-- `AIProcessor._parse_risk_assessment_response` (same fallback shape). -/
def parse_risk_assessment_response (loads : Loads) (tr : TransportResult) : RiskAssessmentResult :=
  match extract_json_span tr.response with
  | some sub =>
    match loads sub with
    | some j =>
      match asObjFields j with
      | some fs =>
        match parse_risk_assessment_json fs tr with
        | some r => r
        | none => rule_based_risk_assessment tr.response
      | none => rule_based_risk_assessment tr.response
    | none => rule_based_risk_assessment tr.response
  | none => rule_based_risk_assessment tr.response

/-- `AIProcessor._parse_quality_check_response` (same fallback shape). -/
def parse_quality_check_response (loads : Loads) (tr : TransportResult) : QualityCheckResult :=
  match extract_json_span tr.response with
  | some sub =>
    match loads sub with
    | some j =>
      match asObjFields j with
      | some fs =>
        match parse_quality_check_json fs tr with
        | some r => r
        | none => rule_based_quality_check tr.response
      | none => rule_based_quality_check tr.response
    | none => rule_based_quality_check tr.response
  | none => rule_based_quality_check tr.response

/-- Configuration read by `_call_ai_service`.  `has_openai` / `has_anthropic`
model the `self.ai_config.has_openai` / `has_anthropic` attribute reads (in
the shipped `config.py` those attributes do not exist, so the read itself
raises and the call fails before the retry loop — the same observable shape
as the modelled `false`/`false` no-service case). -/
structure Settings where
  AI_MAX_RETRIES : Nat
  AI_MODEL_PRIMARY : String
  AI_MODEL_FALLBACK : String
  has_openai : Bool
  has_anthropic : Bool

/-- One `AIAnalysisResult` row as populated by `_call_ai_service`. -/
structure AttemptRecord where
  analysis_type : String
  provider : String
  ai_model_used : String
  error_occurred : Bool
  retry_count : Nat
  confidence_score : ℚ

/-- Record written on a successful attempt; the transport dictionary carries
no `confidence` key, so `result.get(chr(99) ...)` yields the 0.8 default. -/
def success_record (atype service mdl : String) : AttemptRecord :=
  { analysis_type := atype, provider := service, ai_model_used := mdl,
    error_occurred := false, retry_count := 0, confidence_score := 4/5 }

/-- Record written after the final failed attempt (`retry_count = attempt + 1`). -/
def failure_record (atype service mdl : String) (rc : Nat) : AttemptRecord :=
  { analysis_type := atype, provider := service, ai_model_used := mdl,
    error_occurred := true, retry_count := rc, confidence_score := 0 }

/-- The behaviour of one raw model call (`_call_openai` / `_call_anthropic`),
indexed by analysis type, service name and attempt ordinal. -/
abbrev Gateway := String → String → Nat → Except String TransportResult

/-- Observable trace of one `_call_ai_service` run: final result, the
`AIAnalysisResult` records written, the backoff sleeps performed
(`2 ** attempt` seconds), and the number of attempts made. -/
structure CallTrace where
  result : Except String TransportResult
  records : List AttemptRecord
  sleeps : List Nat
  attempts : Nat

/-- `Except.isOk` as a plain Boolean. -/
def is_ok {ε α : Type} : Except ε α → Bool
  | .ok _ => true
  | .error _ => false

/-- Service selection of `_call_ai_service` (lines 185-195): primary
preference with OpenAI, fallback preference with Anthropic, then the OpenAI
fallback model, else the `No AI services available` failure. -/
def select_service (s : Settings) (pref : String) : Option (String × String) :=
  if pref = "primary" ∧ s.has_openai = true then some ("openai", s.AI_MODEL_PRIMARY)
  else if pref = "fallback" ∧ s.has_anthropic = true then some ("anthropic", "claude-3-sonnet-20240229")
  else if s.has_openai = true then some ("openai", s.AI_MODEL_FALLBACK)
  else none

/-- The retry loop body of `_call_ai_service` from attempt index `attempt`
with `remaining` retries left.  A success writes one success record and
returns; a non-final failure sleeps `2 ** attempt` and retries with no
record; the final failure writes one terminal record and re-raises. -/
def retry_from (gw : Gateway) (atype service mdl : String) (attempt : Nat) :
    Nat → CallTrace
  | 0 =>
    match gw atype service attempt with
    | .ok r =>
      { result := .ok r, records := [success_record atype service mdl],
        sleeps := [], attempts := 1 }
    | .error e =>
      { result := .error e, records := [failure_record atype service mdl (attempt + 1)],
        sleeps := [], attempts := 1 }
  | rem + 1 =>
    match gw atype service attempt with
    | .ok r =>
      { result := .ok r, records := [success_record atype service mdl],
        sleeps := [], attempts := 1 }
    | .error _ =>
      let t := retry_from gw atype service mdl (attempt + 1) rem
      { result := t.result, records := t.records,
        sleeps := 2 ^ attempt :: t.sleeps, attempts := t.attempts + 1 }

/-- `AIProcessor._call_ai_service`: select a service, then run the retry
loop over attempts `0 .. AI_MAX_RETRIES`; with no service available the
call raises before the loop (no records, no sleeps, no attempts). -/
def call_ai_service (s : Settings) (gw : Gateway) (atype pref : String) : CallTrace :=
  match select_service s pref with
  | none =>
    { result := .error ("No AI services available"), records := [], sleeps := [], attempts := 0 }
  | some (service, mdl) => retry_from gw atype service mdl 0 s.AI_MAX_RETRIES

/-- `AIProcessor._analyze_categorization`: primary call, then fallback call,
then rule-based categorization. -/
def analyze_categorization (s : Settings) (gw : Gateway) (loads : Loads) (content : Str) :
    CategorizationResult :=
  match (call_ai_service s gw ("categorization") ("primary")).result with
  | .ok r => parse_categorization_response loads r
  | .error _ =>
    match (call_ai_service s gw ("categorization") ("fallback")).result with
    | .ok r => parse_categorization_response loads r
    | .error _ => rule_based_categorization content

/-- `AIProcessor._analyze_risk_assessment`: one (primary-preference) call,
then rule-based risk assessment. -/
def analyze_risk_assessment (s : Settings) (gw : Gateway) (loads : Loads) (content : Str) :
    RiskAssessmentResult :=
  match (call_ai_service s gw ("risk_assessment") ("primary")).result with
  | .ok r => parse_risk_assessment_response loads r
  | .error _ => rule_based_risk_assessment content

/-- `AIProcessor._analyze_quality_check`. -/
def analyze_quality_check (s : Settings) (gw : Gateway) (loads : Loads) (content : Str) :
    QualityCheckResult :=
  match (call_ai_service s gw ("quality_check") ("primary")).result with
  | .ok r => parse_quality_check_response loads r
  | .error _ => rule_based_quality_check content

/-- `round(x, 2)`: rounding to two decimals over ℚ (float representation
and the half-to-even tie rule are not modelled; no claim hits a tie). -/
def round2 (q : ℚ) : ℚ := (round (q * 100) : ℤ) / 100

/-- `AIProcessor._calculate_overall_confidence`, over the collected
confidence values (both result shapes always carry a `confidence` key, so
the key-presence filter of the source keeps all three entries). -/
def calculate_overall_confidence (cs : List ℚ) : ℚ :=
  if cs = [] then 1/2 else round2 ((cs.sum / (cs.length : ℚ)) * (9/10))

/-- `AIProcessor._get_providers_used`: the distinct provider names.  Python
iterates a `set` in unspecified order; modelled as first-occurrence
deduplication, used by claims only up to set equality. -/
def get_providers_used (ps : List String) : List String :=
  ps.foldl (fun acc p => if p ∈ acc then acc else acc ++ [p]) []

/-- The dictionary returned by `analyze_change_request` (the
`analysis_timestamp` wall-clock field is not modelled; `fallback_used` is
`none` when the key is absent). -/
structure AnalysisOutcome where
  categorization : CategorizationResult
  risk_assessment : RiskAssessmentResult
  quality_check : QualityCheckResult
  overall_confidence : ℚ
  providers_used : List String
  fallback_used : Option Bool

/-- `AIProcessor._fallback_analysis`: the complete-fallback outcome. -/
def fallback_analysis (content : Str) : AnalysisOutcome :=
  { categorization := rule_based_categorization content
    risk_assessment := rule_based_risk_assessment content
    quality_check := rule_based_quality_check content
    overall_confidence := 3/10
    providers_used := ["fallback"]
    fallback_used := some true }

/-- The `try` body of `analyze_change_request`: run the three kinds and
assemble the combined dictionary (no `fallback_used` key). -/
def orchestration_body (s : Settings) (gw : Gateway) (loads : Loads) (content : Str) :
    AnalysisOutcome :=
  let c := analyze_categorization s gw loads content
  let r := analyze_risk_assessment s gw loads content
  let q := analyze_quality_check s gw loads content
  { categorization := c
    risk_assessment := r
    quality_check := q
    overall_confidence := calculate_overall_confidence [c.confidence, r.confidence, q.confidence]
    providers_used := get_providers_used [c.provider, r.provider, q.provider]
    fallback_used := none }

/-- `AIProcessor.analyze_change_request`.  Every operational failure below
the orchestration level is already absorbed inside the three `_analyze_*`
calls, which are total here; `fault` injects the remaining possibility of an
unexpected exception raised by the `try` body itself (the catastrophic
path), which the `except` arm converts into `_fallback_analysis`. -/
def analyze_change_request (s : Settings) (gw : Gateway) (loads : Loads) (content : Str)
    (fault : Option String) : AnalysisOutcome :=
  match fault with
  | some _ => fallback_analysis content
  | none => orchestration_body s gw loads content

/-- A model reply wrapped in the markdown code fences named by the spec
(the literal strings before and after the JSON body). -/
def fenced (b : Str) : Str := lit ("```json\n") ++ b ++ lit ("\n```")

/-- Concrete configuration for the end-to-end scenario: both providers
configured, two retries. -/
def c1_settings : Settings :=
  { AI_MAX_RETRIES := 2, AI_MODEL_PRIMARY := "local", AI_MODEL_FALLBACK := "local",
    has_openai := true, has_anthropic := true }

/-- A model endpoint that is unreachable on every call. -/
def c1_gateway : Gateway := fun _ _ _ => .error ("unreachable")

/-- A decoder that is never consulted in the all-unreachable scenario. -/
def c1_loads : Loads := fun _ => none

/-- The end-to-end scenario document text. -/
def c1_content : Str :=
  lit ("Emergency production database outage, revenue impact, customer-facing")

/-- The outcome of the end-to-end scenario. -/
def c1_outcome : AnalysisOutcome :=
  analyze_change_request c1_settings c1_gateway c1_loads c1_content none

/-- A transport result whose reply contains no JSON braces. -/
def c4_transport : TransportResult :=
  { response := lit ("no json here"), model := "local", provider := "openai",
    input_tokens := 0, output_tokens := 0, total_tokens := 0 }

/-- Configuration with two retries and only the primary provider. -/
def c5_settings : Settings :=
  { AI_MAX_RETRIES := 2, AI_MODEL_PRIMARY := "local", AI_MODEL_FALLBACK := "local",
    has_openai := true, has_anthropic := false }

/-- The reply returned by the fail-once-then-succeed gateway stub. -/
def c5_transport : TransportResult :=
  { response := [], model := "local", provider := "openai",
    input_tokens := 0, output_tokens := 0, total_tokens := 0 }

/-- A gateway stub failing on attempt 0 and succeeding afterwards. -/
def c5_gateway : Gateway :=
  fun _ _ attempt => if attempt = 0 then .error ("boom") else .ok c5_transport

/-- Configuration for the retry-exhaustion scenario. -/
def c6_settings : Settings :=
  { AI_MAX_RETRIES := 2, AI_MODEL_PRIMARY := "local", AI_MODEL_FALLBACK := "local",
    has_openai := true, has_anthropic := false }

/-- A gateway stub that always fails. -/
def c6_gateway : Gateway := fun _ _ _ => .error ("down")

/-- The error text family of the always-failing gateway stub. -/
def c6_emsg : String → Nat → String := fun _ _ => "down"

/-- Transport provenance used for the clamping examples. -/
def c7_tr : TransportResult :=
  { response := [], model := "m", provider := "p",
    input_tokens := 0, output_tokens := 0, total_tokens := 3 }

/-- A decoded object carrying an out-of-range risk score. -/
def c7_fs : List (String × JsonVal) := [("risk_score", JsonVal.jnum 15)]

/-- The parse result of `c7_fs` (clamps left symbolic). -/
def c7_record : RiskAssessmentResult :=
  { risk_level := lit ("medium")
    risk_score := max 1 (min 9 (ratTrunc 15))
    impact_score := max 1 (min 3 2)
    probability_score := max 1 (min 3 2)
    risk_factors := []
    mitigation_recommendations := []
    confidence := min (max (1/2) 0) 1
    requires_additional_review := false
    provider := "p"
    model := "m"
    tokens_used := 3 }

/-- Text containing one high-risk keyword twice and nothing else. -/
def c8_text : Str := lit ("production and production")

/-- The empty JSON object reply. -/
def c9_body : Str := lit ("\x7b\x7d")

/-- A decoder recognising exactly the empty-object body. -/
def c9_loads : Loads := fun s => if s = lit ("\x7b\x7d") then some (.jobj []) else none

/-- Transport result delivering the fenced empty-object reply. -/
def c9_tr_fenced : TransportResult :=
  { response := fenced (lit ("\x7b\x7d")), model := "m", provider := "p",
    input_tokens := 0, output_tokens := 0, total_tokens := 3 }

/-- Transport result delivering the bare empty-object reply. -/
def c9_tr_bare : TransportResult :=
  { response := lit ("\x7b\x7d"), model := "m", provider := "p",
    input_tokens := 0, output_tokens := 0, total_tokens := 3 }

/-- The categorization produced from the empty object (all defaults). -/
def c9_record : CategorizationResult :=
  { category := lit ("normal"), priority := lit ("medium"),
    title := lit ("Untitled Change Request"), description := [], affected_systems := [],
    confidence := min (max (1/2) 0) 1, reasoning := .jstr [],
    provider := "p", model := "m", tokens_used := 3 }

/-- A JSON object body whose `confidence` field is a non-numeric string,
so field coercion fails after a successful decode. -/
def c9_bad_body : Str := lit ("\x7b\"confidence\": \"x\"\x7d")

/-- A decoder recognising exactly `c9_bad_body`. -/
def c9_bad_loads : Loads :=
  fun s => if s = c9_bad_body then some (.jobj [("confidence", JsonVal.jstr (lit ("x")))]) else none

/-- Transport result delivering the fenced bad body. -/
def c9_bad_trF : TransportResult :=
  { response := fenced c9_bad_body, model := "m", provider := "p",
    input_tokens := 0, output_tokens := 0, total_tokens := 3 }

/-- Transport result delivering the bare bad body. -/
def c9_bad_trB : TransportResult :=
  { response := c9_bad_body, model := "m", provider := "p",
    input_tokens := 0, output_tokens := 0, total_tokens := 3 }

/-- A decoder recognising exactly the empty-object body (C10 instance). -/
def c10_loads : Loads := fun s => if s = lit ("\x7b\x7d") then some (.jobj []) else none

/-- Transport result delivering the empty-object reply (C10 instance). -/
def c10_tr : TransportResult :=
  { response := lit ("\x7b\x7d"), model := "m", provider := "p",
    input_tokens := 0, output_tokens := 0, total_tokens := 3 }

/-- The retry loop writes exactly one `AIAnalysisResult` record per run:
a success record on the first success, or one terminal failure record whose
`retry_count` is the number of attempts made. -/
theorem retry_one_record (gw : Gateway) (atype service mdl : String) :
    ∀ (rem attempt : Nat), ∃ rec,
      (retry_from gw atype service mdl attempt rem).records = [rec] ∧
      rec.error_occurred = !is_ok (retry_from gw atype service mdl attempt rem).result ∧
      (rec.error_occurred = true →
        rec.retry_count = attempt + (retry_from gw atype service mdl attempt rem).attempts) := by
  intro rem
  induction rem with
  | zero =>
    intro attempt
    cases h : gw atype service attempt with
    | ok r =>
      exact ⟨success_record atype service mdl, by simp [retry_from, h],
        by simp [retry_from, h, is_ok, success_record],
        by simp [success_record]⟩
    | error e =>
      refine ⟨failure_record atype service mdl (attempt + 1), by simp [retry_from, h],
        by simp [retry_from, h, is_ok, failure_record], ?_⟩
      intro _
      simp [retry_from, h, failure_record]
  | succ rem ih =>
    intro attempt
    cases h : gw atype service attempt with
    | ok r =>
      exact ⟨success_record atype service mdl, by simp [retry_from, h],
        by simp [retry_from, h, is_ok, success_record],
        by simp [success_record]⟩
    | error e =>
      obtain ⟨rec, h1, h2, h3⟩ := ih (attempt + 1)
      refine ⟨rec, by simp [retry_from, h, h1], by simpa [retry_from, h] using h2, ?_⟩
      intro he
      have := h3 he
      simp [retry_from, h]
      omega

/-- With the primary provider configured, service selection always succeeds. -/
theorem select_service_some (s : Settings) (pref : String) (h : s.has_openai = true) :
    ∃ svc mdl, select_service s pref = some (svc, mdl) := by
  unfold select_service
  by_cases h1 : pref = "primary" ∧ s.has_openai = true
  · rw [if_pos h1]; exact ⟨_, _, rfl⟩
  · rw [if_neg h1]
    by_cases h2 : pref = "fallback" ∧ s.has_anthropic = true
    · rw [if_pos h2]; exact ⟨_, _, rfl⟩
    · rw [if_neg h2, if_pos h]; exact ⟨_, _, rfl⟩

/-- With an always-failing gateway, the retry loop makes one attempt per
remaining-retry budget plus one, returns the final error, and sleeps the
attempt-indexed powers of two between attempts. -/
theorem retry_all_fail (gw : Gateway) (atype service mdl : String) (emsg : Nat → String)
    (hgw : ∀ i, gw atype service i = .error (emsg i)) :
    ∀ (rem attempt : Nat),
      (retry_from gw atype service mdl attempt rem).attempts = rem + 1 ∧
      (retry_from gw atype service mdl attempt rem).result = .error (emsg (attempt + rem)) ∧
      (retry_from gw atype service mdl attempt rem).sleeps
        = (List.range rem).map (fun k => 2 ^ (attempt + k)) := by
  intro rem
  induction rem with
  | zero =>
    intro attempt
    exact ⟨by simp [retry_from, hgw attempt], by simp [retry_from, hgw attempt],
      by simp [retry_from, hgw attempt]⟩
  | succ rem ih =>
    intro attempt
    obtain ⟨h1, h2, h3⟩ := ih (attempt + 1)
    refine ⟨by simp [retry_from, hgw attempt, h1], ?_, ?_⟩
    · rw [show attempt + (rem + 1) = attempt + 1 + rem by omega]
      simp [retry_from, hgw attempt, h2]
    · simp only [retry_from, hgw attempt, h3]
      rw [List.range_succ_eq_map]
      simp only [List.map_cons, List.map_map, pow_zero, Nat.add_zero]
      congr 1
      apply List.map_congr_left
      intro a _
      have hx : attempt + 1 + a = attempt + (a + 1) := by omega
      simp [Function.comp, hx]

/-- When the JSON span is missing or fails to decode, the categorization
parser returns the rule-based categorization of the raw reply. -/
theorem parse_cat_unparseable (loads : Loads) (tr : TransportResult)
    (h : extract_json_span tr.response = none ∨
      ∃ sub, extract_json_span tr.response = some sub ∧ loads sub = none) :
    parse_categorization_response loads tr = rule_based_categorization tr.response := by
  rcases h with h | ⟨sub, h1, h2⟩
  · unfold parse_categorization_response
    rw [h]
  · unfold parse_categorization_response
    rw [h1]
    simp only [h2]

/-- When the JSON span is missing or fails to decode, the risk parser
returns the rule-based risk assessment of the raw reply. -/
theorem parse_risk_unparseable (loads : Loads) (tr : TransportResult)
    (h : extract_json_span tr.response = none ∨
      ∃ sub, extract_json_span tr.response = some sub ∧ loads sub = none) :
    parse_risk_assessment_response loads tr = rule_based_risk_assessment tr.response := by
  rcases h with h | ⟨sub, h1, h2⟩
  · unfold parse_risk_assessment_response
    rw [h]
  · unfold parse_risk_assessment_response
    rw [h1]
    simp only [h2]

/-- When the span extracts and decodes to an object, the categorization
parser reduces to the field-extraction stage. -/
theorem parse_cat_response_obj (loads : Loads) (tr : TransportResult) (sub : Str)
    (fs : List (String × JsonVal))
    (h1 : extract_json_span tr.response = some sub) (h2 : loads sub = some (.jobj fs)) :
    parse_categorization_response loads tr
      = (match parse_categorization_json fs tr with
         | some r => r
         | none => rule_based_categorization tr.response) := by
  unfold parse_categorization_response
  rw [h1]
  simp only [h2, asObjFields]

/-- The field-extraction stage never reads the raw response text; it only
copies provider, model and token usage from the transport result. -/
theorem parse_categorization_json_resp_irrel (fs : List (String × JsonVal))
    (tr1 tr2 : TransportResult) (hp : tr1.provider = tr2.provider)
    (hm : tr1.model = tr2.model) (ht : tr1.total_tokens = tr2.total_tokens) :
    parse_categorization_json fs tr1 = parse_categorization_json fs tr2 := by
  unfold parse_categorization_json
  rw [hp, hm, ht]

/-- `str.find` over an append whose first part lacks the character. -/
theorem findChar_append_none {a : Str} {c : Char} (h : findChar a c = none) (b : Str) :
    findChar (a ++ b) c = (findChar b c).map (· + a.length) := by
  induction a with
  | nil =>
    cases hb : findChar b c <;> simp [hb]
  | cons x xs ih =>
    rw [findChar] at h
    by_cases hx : x = c
    · rw [if_pos hx] at h
      exact absurd h (by simp)
    · rw [if_neg hx] at h
      have hxs : findChar xs c = none := by
        cases hfc : findChar xs c
        · rfl
        · rw [hfc] at h; simp at h
      show findChar (x :: (xs ++ b)) c = _
      rw [findChar, if_neg hx, ih hxs]
      cases hb : findChar b c
      · simp
      · simp [List.length_cons]
        omega

/-- `str.find` of the head character is index 0. -/
theorem findChar_head {b : Str} {c : Char} (h : b.head? = some c) : findChar b c = some 0 := by
  cases b with
  | nil => simp at h
  | cons x xs =>
    simp only [List.head?_cons, Option.some.injEq] at h
    subst h
    simp [findChar]

/-- `str.rfind` ignores an appended suffix that lacks the character. -/
theorem rfindChar_append_none {b : Str} {c : Char} (h : rfindChar b c = none) (a : Str) :
    rfindChar (a ++ b) c = rfindChar a c := by
  induction a with
  | nil => simpa using h
  | cons x xs ih =>
    show rfindChar (x :: (xs ++ b)) c = rfindChar (x :: xs) c
    rw [rfindChar, ih, rfindChar]

/-- `str.rfind` over an append whose second part holds the character. -/
theorem rfindChar_append_some {b : Str} {c : Char} {i : Nat} (h : rfindChar b c = some i)
    (a : Str) : rfindChar (a ++ b) c = some (a.length + i) := by
  induction a with
  | nil => simpa using h
  | cons x xs ih =>
    show rfindChar (x :: (xs ++ b)) c = _
    rw [rfindChar, ih]
    simp [List.length_cons]
    omega

/-- `str.rfind` of the last character is the last index. -/
theorem rfindChar_getLast {b : Str} {c : Char} (h : b.getLast? = some c) :
    rfindChar b c = some (b.length - 1) := by
  induction b with
  | nil => simp at h
  | cons x xs ih =>
    cases xs with
    | nil =>
      simp only [List.getLast?_singleton, Option.some.injEq] at h
      subst h
      simp [rfindChar]
    | cons y ys =>
      have h' : (y :: ys).getLast? = some c := by
        rwa [List.getLast?_cons_cons] at h
      rw [rfindChar, ih h']
      simp [List.length_cons]

/-- On a brace-delimited body the span extraction returns the body itself. -/
theorem extract_json_span_braces {b : Str} (h1 : b.head? = some '\x7b')
    (h2 : b.getLast? = some '\x7d') : extract_json_span b = some b := by
  have hlen : 1 ≤ b.length := by
    cases b with
    | nil => simp at h1
    | cons x xs => simp [List.length_cons]
  unfold extract_json_span
  rw [findChar_head h1, rfindChar_getLast h2]
  dsimp only
  rw [if_pos (by omega)]
  congr 1
  rw [List.drop_zero]
  rw [show b.length - 1 + 1 - 0 = b.length by omega]
  exact List.take_length b

/-- On a fenced brace-delimited body the span extraction still returns the
bare body: the fences hold no braces, so first-brace/last-brace slicing
skips them. -/
theorem extract_json_span_fenced {b : Str} (h1 : b.head? = some '\x7b')
    (h2 : b.getLast? = some '\x7d') : extract_json_span (fenced b) = some b := by
  have hlen : 1 ≤ b.length := by
    cases b with
    | nil => simp at h1
    | cons x xs => simp [List.length_cons]
  have hpre : findChar (lit ("```json\n")) '\x7b' = none := rfl
  have hsuf : rfindChar (lit ("\n```")) '\x7d' = none := rfl
  have hb : (b ++ lit ("\n```")).head? = some '\x7b' := by
    cases b with
    | nil => simp at h1
    | cons x xs =>
      simp only [List.cons_append, List.head?_cons]
      simpa using h1
  have hf : findChar (fenced b) '\x7b' = some 8 := by
    unfold fenced
    rw [List.append_assoc, findChar_append_none hpre, findChar_head hb]
    rfl
  have hrf : rfindChar (fenced b) '\x7d' = some (8 + (b.length - 1)) := by
    unfold fenced
    rw [rfindChar_append_none hsuf, rfindChar_append_some (rfindChar_getLast h2)]
    rfl
  unfold extract_json_span
  rw [hf, hrf]
  dsimp only
  rw [if_pos (by omega)]
  congr 1
  unfold fenced
  rw [List.append_assoc]
  rw [show (8 : Nat) = (lit ("```json\n")).length from rfl, List.drop_left]
  rw [show (lit ("```json\n")).length + (b.length - 1) + 1 - (lit ("```json\n")).length = b.length by
    simp [lit]
    omega]
  exact List.take_left b _

/-- `round(x, 2)` of a value whose hundredfold is an integer. -/
theorem round2_int (q : ℚ) (n : ℤ) (h : q * 100 = (n : ℚ)) : round2 q = (n : ℚ) / 100 := by
  unfold round2
  rw [h, round_intCast]

/-- The aggregate confidence over exactly three collected values. -/
theorem calc_overall_three (a b c : ℚ) :
    calculate_overall_confidence [a, b, c] = round2 ((a + b + c) / 3 * (9/10)) := by
  simp [calculate_overall_confidence]
  ring_nf

/-- C1 (counterexample): in the end-to-end scenario with every model call
unreachable, `overall_confidence` is 0.27 — not the claimed 0.3 — and
`fallback_used` is not set, because each kind's failure is absorbed inside
its own analysis method and the complete-fallback path is never taken. -/
theorem c1_counterexample :
    c1_outcome.overall_confidence ≠ 3/10 ∧
    c1_outcome.overall_confidence = 27/100 ∧
    c1_outcome.fallback_used ≠ some true := by
  have hv : c1_outcome.overall_confidence = 27/100 := by
    show calculate_overall_confidence [3/10, 3/10, 3/10] = 27/100
    rw [calc_overall_three, round2_int _ 27 (by norm_num)]
    norm_num
  refine ⟨by rw [hv]; norm_num, hv, by simp [show c1_outcome.fallback_used = none from rfl]⟩

/-- C1 (amended): for the document text "Emergency production database
outage, revenue impact, customer-facing" with the model endpoint unreachable
on every call, the outcome has categorization emergency/critical, risk
high/6, all three per-kind confidences 0.3 and providers_used = fallback
only — but through the per-kind fallback path: overall_confidence is
round(0.3 * 0.9, 2) = 0.27 and the fallback_used key is not set. -/
theorem c1_scenario_kind_fallback :
    c1_outcome.categorization.category = lit ("emergency") ∧
    c1_outcome.categorization.priority = lit ("critical") ∧
    c1_outcome.risk_assessment.risk_level = lit ("high") ∧
    c1_outcome.risk_assessment.risk_score = 6 ∧
    c1_outcome.categorization.confidence = 3/10 ∧
    c1_outcome.risk_assessment.confidence = 3/10 ∧
    c1_outcome.quality_check.confidence = 3/10 ∧
    c1_outcome.overall_confidence = 27/100 ∧
    c1_outcome.providers_used = ["fallback"] ∧
    c1_outcome.fallback_used = none := by
  refine ⟨rfl, rfl, rfl, rfl, rfl, rfl, rfl, ?_, rfl, rfl⟩
  show calculate_overall_confidence [3/10, 3/10, 3/10] = 27/100
  rw [calc_overall_three, round2_int _ 27 (by norm_num)]
  norm_num

/-- C2: `analyze_change_request` is total (it returns an outcome for every
input, never raising).  `fallback_used` is set — always to true — exactly on
the catastrophic path where the orchestration body itself fails; that path
returns the complete-fallback outcome: all three kinds rule-derived,
aggregate confidence fixed at 0.3.  In the normal path the key is absent. -/
theorem c2_fallback_used_catastrophic_only (s : Settings) (gw : Gateway) (loads : Loads)
    (content : Str) (e : String) :
    (analyze_change_request s gw loads content none).fallback_used = none ∧
    analyze_change_request s gw loads content (some e) = fallback_analysis content ∧
    (fallback_analysis content).fallback_used = some true ∧
    (fallback_analysis content).overall_confidence = 3/10 ∧
    (fallback_analysis content).categorization = rule_based_categorization content ∧
    (fallback_analysis content).risk_assessment = rule_based_risk_assessment content ∧
    (fallback_analysis content).quality_check = rule_based_quality_check content ∧
    (fallback_analysis content).providers_used = ["fallback"] :=
  ⟨rfl, rfl, rfl, rfl, rfl, rfl, rfl, rfl⟩

/-- C3: in the normal path, `overall_confidence` is the average of the three
per-kind confidences times the 0.9 conservatism factor, rounded to two
decimals; for confidences 0.8, 0.6, 0.7 the aggregate is 0.63. -/
theorem c3_overall_confidence_formula (s : Settings) (gw : Gateway) (loads : Loads)
    (content : Str) :
    (analyze_change_request s gw loads content none).overall_confidence
      = round2 (((analyze_categorization s gw loads content).confidence
          + (analyze_risk_assessment s gw loads content).confidence
          + (analyze_quality_check s gw loads content).confidence) / 3 * (9/10)) ∧
    calculate_overall_confidence [4/5, 3/5, 7/10] = 63/100 := by
  constructor
  · exact calc_overall_three _ _ _
  · rw [calc_overall_three, round2_int _ 63 (by norm_num)]
    norm_num

/-- C4 (counterexample): on a reply with no braces the categorization parser
does not return a sentinel — it returns the full rule-based fallback result
computed from the raw reply (provider "fallback", confidence 0.3), i.e. the
parser itself invokes the rule fallback. -/
theorem c4_counterexample :
    parse_categorization_response (fun _ => none) c4_transport
      = rule_based_categorization (lit ("no json here")) ∧
    (parse_categorization_response (fun _ => none) c4_transport).provider = "fallback" ∧
    (parse_categorization_response (fun _ => none) c4_transport).confidence = 3/10 :=
  ⟨rfl, rfl, rfl⟩

/-- C4 (amended): the parsers are total, and for every transport result
whose reply has no brace-delimited span or whose span fails to decode, the
parsers do not raise and directly return the rule-based fallback result for
that kind computed from the raw reply (provider "fallback", confidence 0.3),
rather than a sentinel. -/
theorem c4_unparseable_rule_fallback (loads : Loads) (tr : TransportResult)
    (h : extract_json_span tr.response = none ∨
      ∃ sub, extract_json_span tr.response = some sub ∧ loads sub = none) :
    parse_categorization_response loads tr = rule_based_categorization tr.response ∧
    parse_risk_assessment_response loads tr = rule_based_risk_assessment tr.response ∧
    (rule_based_categorization tr.response).provider = "fallback" ∧
    (rule_based_categorization tr.response).confidence = 3/10 ∧
    (rule_based_risk_assessment tr.response).provider = "fallback" ∧
    (rule_based_risk_assessment tr.response).confidence = 3/10 :=
  ⟨parse_cat_unparseable loads tr h, parse_risk_unparseable loads tr h, rfl, rfl, rfl, rfl⟩

/-- C4 (witness): the amended statement at the concrete no-brace reply. -/
theorem c4_witness :
    parse_categorization_response (fun _ => none) c4_transport
        = rule_based_categorization c4_transport.response ∧
    parse_risk_assessment_response (fun _ => none) c4_transport
        = rule_based_risk_assessment c4_transport.response ∧
    (rule_based_categorization c4_transport.response).provider = "fallback" ∧
    (rule_based_categorization c4_transport.response).confidence = 3/10 ∧
    (rule_based_risk_assessment c4_transport.response).provider = "fallback" ∧
    (rule_based_risk_assessment c4_transport.response).confidence = 3/10 :=
  c4_unparseable_rule_fallback (fun _ => none) c4_transport (Or.inl rfl)

/-- C5 (counterexample): with a gateway failing once and then succeeding
(k = 1) and two retries allowed, the run makes two attempts and succeeds but
writes exactly one record, not k + 1 = 2: failed non-final attempts write no
record. -/
theorem c5_counterexample :
    (call_ai_service c5_settings c5_gateway ("categorization") ("primary")).records.length ≠ 2 ∧
    (call_ai_service c5_settings c5_gateway ("categorization") ("primary")).records.length = 1 ∧
    (call_ai_service c5_settings c5_gateway ("categorization") ("primary")).attempts = 2 ∧
    is_ok (call_ai_service c5_settings c5_gateway ("categorization") ("primary")).result = true := by
  exact ⟨by decide, by decide, by decide, by decide⟩

/-- C5 (amended): whenever a service is selected, one run of
`_call_ai_service` writes exactly one record: marked successful when the run
succeeds, or a terminal failure record whose `retry_count` equals the number
of attempts made; failed non-final attempts write no record at all. -/
theorem c5_single_attempt_record (s : Settings) (gw : Gateway) (atype pref : String)
    (h : s.has_openai = true) :
    (call_ai_service s gw atype pref).records.length = 1 ∧
    ∀ rec ∈ (call_ai_service s gw atype pref).records,
      rec.error_occurred = !is_ok (call_ai_service s gw atype pref).result ∧
      (rec.error_occurred = true →
        rec.retry_count = (call_ai_service s gw atype pref).attempts) := by
  obtain ⟨svc, mdl, hsel⟩ := select_service_some s pref h
  obtain ⟨rec, h1, h2, h3⟩ := retry_one_record gw atype svc mdl s.AI_MAX_RETRIES 0
  unfold call_ai_service
  rw [hsel]
  dsimp only
  constructor
  · rw [h1]
    rfl
  · intro r hr
    rw [h1] at hr
    simp only [List.mem_singleton] at hr
    subst hr
    exact ⟨h2, fun he => by simpa using h3 he⟩

/-- C5 (witness): the amended statement at the fail-once-then-succeed stub. -/
theorem c5_witness :
    (call_ai_service c5_settings c5_gateway ("categorization") ("primary")).records.length = 1 :=
  (c5_single_attempt_record c5_settings c5_gateway ("categorization") ("primary") rfl).1

/-- C6: with an always-failing gateway, `_call_ai_service` makes exactly
`AI_MAX_RETRIES + 1` attempts, propagates the final error to the caller, and
sleeps `2 ^ attempt` time units between consecutive attempts (the base
backoff unit is the hard-coded one second), so successive delays are
non-decreasing. -/
theorem c6_retry_exhaustion_backoff (s : Settings) (gw : Gateway) (atype pref : String)
    (emsg : String → Nat → String) (h : s.has_openai = true)
    (hgw : ∀ svc i, gw atype svc i = Except.error (emsg svc i)) :
    (call_ai_service s gw atype pref).attempts = s.AI_MAX_RETRIES + 1 ∧
    (∃ svc mdl, select_service s pref = some (svc, mdl) ∧
      (call_ai_service s gw atype pref).result = Except.error (emsg svc s.AI_MAX_RETRIES)) ∧
    (call_ai_service s gw atype pref).sleeps
      = (List.range s.AI_MAX_RETRIES).map (fun a => 2 ^ a) ∧
    (call_ai_service s gw atype pref).sleeps.Pairwise (· ≤ ·) := by
  obtain ⟨svc, mdl, hsel⟩ := select_service_some s pref h
  obtain ⟨h1, h2, h3⟩ := retry_all_fail gw atype svc mdl (emsg svc) (hgw svc) s.AI_MAX_RETRIES 0
  have hcall : call_ai_service s gw atype pref = retry_from gw atype svc mdl 0 s.AI_MAX_RETRIES := by
    unfold call_ai_service
    rw [hsel]
  have hsleeps : (call_ai_service s gw atype pref).sleeps
      = (List.range s.AI_MAX_RETRIES).map (fun a => 2 ^ a) := by
    rw [hcall, h3]
    apply List.map_congr_left
    intro a _
    simp
  refine ⟨by rw [hcall]; exact h1, ⟨svc, mdl, hsel, ?_⟩, hsleeps, ?_⟩
  · rw [hcall, h2]
    simp
  · rw [hsleeps, List.pairwise_map]
    exact (List.pairwise_lt_range _).imp
      (fun hab => Nat.pow_le_pow_right (by norm_num) (Nat.le_of_lt hab))

/-- C6 (witness): the statement at the always-failing stub with two retries:
three attempts and sleeps of 1 then 2 seconds. -/
theorem c6_witness :
    (call_ai_service c6_settings c6_gateway ("risk_assessment") ("primary")).attempts = 3 ∧
    (call_ai_service c6_settings c6_gateway ("risk_assessment") ("primary")).sleeps = [1, 2] := by
  have h := c6_retry_exhaustion_backoff c6_settings c6_gateway ("risk_assessment") ("primary")
    c6_emsg rfl (fun _ _ => rfl)
  refine ⟨h.1, ?_⟩
  rw [h.2.2.1]
  rfl

/-- C7: model-parse results clamp every numeric field into its declared
domain and keep only the first cap entries of every list field, in order;
concretely a parsed risk_score of 15 becomes 9, a confidence of 1.7 becomes
1.0 and a quality_score of -5 becomes 0. -/
theorem c7_clamping_truncation (fs : List (String × JsonVal)) (tr : TransportResult) :
    (∀ r, parse_risk_assessment_json fs tr = some r →
      1 ≤ r.risk_score ∧ r.risk_score ≤ 9 ∧
      1 ≤ r.impact_score ∧ r.impact_score ≤ 3 ∧
      1 ≤ r.probability_score ∧ r.probability_score ≤ 3 ∧
      0 ≤ r.confidence ∧ r.confidence ≤ 1 ∧
      r.risk_factors.length ≤ 20 ∧ r.mitigation_recommendations.length ≤ 10 ∧
      (∃ l, getListOr fs ("risk_factors") = some l ∧ r.risk_factors = l.take 20)) ∧
    (∀ r, parse_categorization_json fs tr = some r →
      0 ≤ r.confidence ∧ r.confidence ≤ 1 ∧ r.affected_systems.length ≤ 10 ∧
      r.title.length ≤ 200 ∧ r.description.length ≤ 1000 ∧
      (∃ l, getListOr fs ("affected_systems") = some l ∧ r.affected_systems = l.take 10)) ∧
    (∀ r, parse_quality_check_json fs tr = some r →
      0 ≤ r.quality_score ∧ r.quality_score ≤ 100 ∧ 0 ≤ r.confidence ∧ r.confidence ≤ 1 ∧
      r.quality_issues.length ≤ 50 ∧ r.compliance_flags.length ≤ 20 ∧
      (∃ l, getListOr fs ("quality_issues") = some l ∧ r.quality_issues = l.take 50)) ∧
    (parse_risk_assessment_json [("risk_score", .jnum 15)] tr).map (fun r => r.risk_score)
      = some 9 ∧
    (parse_categorization_json [("confidence", .jnum (17/10))] tr).map (fun r => r.confidence)
      = some 1 ∧
    (parse_quality_check_json [("quality_score", .jnum (-5))] tr).map (fun r => r.quality_score)
      = some 0 := by
  refine ⟨?_, ?_, ?_, ?_, ?_, ?_⟩
  · intro r h
    unfold parse_risk_assessment_json at h
    split at h
    · rename_i lvl rs imp prob rf mit conf hlvl hrs himp hprob hrf hmit hconf
      rw [Option.some.injEq] at h
      subst h
      refine ⟨le_max_left _ _, max_le (by norm_num) (min_le_left _ _),
        le_max_left _ _, max_le (by norm_num) (min_le_left _ _),
        le_max_left _ _, max_le (by norm_num) (min_le_left _ _),
        le_min (le_max_right _ _) zero_le_one, min_le_right _ _,
        by rw [List.length_take]; exact min_le_left _ _,
        by rw [List.length_take]; exact min_le_left _ _,
        ⟨rf, hrf, rfl⟩⟩
    · simp at h
  · intro r h
    unfold parse_categorization_json at h
    split at h
    · rename_i cat pri title desc aff conf hcat hpri htitle hdesc haff hconf
      rw [Option.some.injEq] at h
      subst h
      refine ⟨le_min (le_max_right _ _) zero_le_one, min_le_right _ _,
        by rw [List.length_take]; exact min_le_left _ _,
        by rw [List.length_take]; exact min_le_left _ _,
        by rw [List.length_take]; exact min_le_left _ _,
        ⟨aff, haff, rfl⟩⟩
    · simp at h
  · intro r h
    unfold parse_quality_check_json at h
    split at h
    · rename_i qs qi cf conf hqs hqi hcf hconf
      rw [Option.some.injEq] at h
      subst h
      refine ⟨le_max_left _ _, max_le (by norm_num) (min_le_left _ _),
        le_min (le_max_right _ _) zero_le_one, min_le_right _ _,
        by rw [List.length_take]; exact min_le_left _ _,
        by rw [List.length_take]; exact min_le_left _ _,
        ⟨qi, hqi, rfl⟩⟩
    · simp at h
  · rw [show parse_risk_assessment_json [("risk_score", .jnum 15)] tr
        = some { risk_level := lit ("medium"),
                 risk_score := max 1 (min 9 (ratTrunc 15)),
                 impact_score := max 1 (min 3 2), probability_score := max 1 (min 3 2),
                 risk_factors := [], mitigation_recommendations := [],
                 confidence := min (max (1/2) 0) 1,
                 requires_additional_review := false,
                 provider := tr.provider, model := tr.model, tokens_used := tr.total_tokens }
      from rfl]
    rw [Option.map_some']
    rw [Option.some.injEq]
    show max 1 (min 9 (ratTrunc 15)) = 9
    have h15 : ratTrunc 15 = 15 := by
      unfold ratTrunc
      rw [if_pos (by norm_num)]
      rw [show ((15 : ℚ)) = ((15 : ℤ) : ℚ) by norm_num, Int.floor_intCast]
    rw [h15]
    simp [min_def, max_def]
  · rw [show parse_categorization_json [("confidence", .jnum (17/10))] tr
        = some { category := lit ("normal"), priority := lit ("medium"),
                 title := lit ("Untitled Change Request"), description := [],
                 affected_systems := [], confidence := min (max (17/10) 0) 1,
                 reasoning := .jstr [], provider := tr.provider, model := tr.model,
                 tokens_used := tr.total_tokens }
      from rfl]
    rw [Option.map_some']
    rw [Option.some.injEq]
    show min (max (17/10 : ℚ) 0) 1 = 1
    rw [max_def, min_def]
    norm_num
  · rw [show parse_quality_check_json [("quality_score", .jnum (-5))] tr
        = some { quality_score := max 0 (min 100 (ratTrunc (-5))),
                 quality_issues := [], completeness_check := .jobj [],
                 compliance_flags := [], confidence := min (max (1/2) 0) 1,
                 overall_assessment := .jstr [], provider := tr.provider, model := tr.model,
                 tokens_used := tr.total_tokens }
      from rfl]
    rw [Option.map_some']
    rw [Option.some.injEq]
    show max 0 (min 100 (ratTrunc (-5))) = 0
    have h5 : ratTrunc (-5) = -5 := by
      unfold ratTrunc
      rw [if_neg (by norm_num)]
      rw [show ((-5 : ℚ)) = ((-5 : ℤ) : ℚ) by norm_num, Int.ceil_intCast]
    rw [h5]
    simp [min_def, max_def]

/-- C7 (witness): clamping at the concrete out-of-range risk score 15. -/
theorem c7_witness :
    1 ≤ c7_record.risk_score ∧ c7_record.risk_score ≤ 9 ∧
    (parse_risk_assessment_json c7_fs c7_tr).map (fun r => r.risk_score) = some 9 := by
  have h := c7_clamping_truncation c7_fs c7_tr
  have hb := h.1 c7_record rfl
  exact ⟨hb.1, hb.2.1, h.2.2.2.1⟩

/-- C8 (counterexample): in "production and production" the high-risk
keywords occur twice in total, yet the rule-based assessment returns
medium/4, not the high/6 the occurrence-count reading of the claim
predicts: the source counts distinct keywords present, not occurrences. -/
theorem c8_counterexample :
    (high_risk_keywords.map (fun kw => countOcc kw (pyLower c8_text))).sum = 2 ∧
    (rule_based_risk_assessment c8_text).risk_level = lit ("medium") ∧
    (rule_based_risk_assessment c8_text).risk_score = 4 ∧
    lit ("medium") ≠ lit ("high") := by
  exact ⟨by decide, by decide, by decide, by decide⟩

/-- C8 (amended): the rule-based risk assessment counts how many of the
listed high-risk and medium-risk keywords occur at least once in the
lower-cased text (each keyword counted once regardless of multiplicity):
at least 2 high-risk keywords present gives high/6, at least 1 high-risk or
at least 3 medium-risk gives medium/4, otherwise low/2 — always with
confidence 0.3 and requires_additional_review true. -/
theorem c8_rule_risk_characterization (content : Str) :
    ((rule_based_risk_assessment content).risk_level,
        (rule_based_risk_assessment content).risk_score)
      = (if 2 ≤ List.countP (fun kw => strContains (pyLower content) kw) high_risk_keywords
           then (lit ("high"), (6 : Int))
         else if 1 ≤ List.countP (fun kw => strContains (pyLower content) kw) high_risk_keywords
                ∨ 3 ≤ List.countP (fun kw => strContains (pyLower content) kw) medium_risk_keywords
           then (lit ("medium"), (4 : Int))
         else (lit ("low"), (2 : Int))) ∧
    (rule_based_risk_assessment content).confidence = 3/10 ∧
    (rule_based_risk_assessment content).requires_additional_review = true ∧
    (rule_based_risk_assessment content).impact_score = 2 ∧
    (rule_based_risk_assessment content).probability_score = 2 ∧
    (rule_based_risk_assessment content).provider = "fallback" := by
  refine ⟨?_, rfl, rfl, rfl, rfl, rfl⟩
  unfold rule_based_risk_assessment
  simp only [List.countP_eq_length_filter]

/-- C9 (counterexample): a JSON object body whose confidence field is a
non-numeric string decodes but fails field coercion, so the fenced and bare
replies each fall back to the rule-based result of their own raw text and
the structured results differ (the titles embed the respective raw reply). -/
theorem c9_counterexample :
    c9_bad_body.head? = some '\x7b' ∧ c9_bad_body.getLast? = some '\x7d' ∧
    parse_categorization_response c9_bad_loads c9_bad_trF
      = rule_based_categorization (fenced c9_bad_body) ∧
    parse_categorization_response c9_bad_loads c9_bad_trB
      = rule_based_categorization c9_bad_body ∧
    (parse_categorization_response c9_bad_loads c9_bad_trF).title
      ≠ (parse_categorization_response c9_bad_loads c9_bad_trB).title := by
  refine ⟨rfl, rfl, rfl, rfl, by decide⟩

/-- C9 (amended): for every JSON object body that decodes to an object whose
fields coerce into the categorization schema, parsing the reply wrapped in
markdown code fences yields a structured result identical to parsing the
bare reply; when field coercion fails instead, each path returns the
rule-based fallback of its own raw reply, which differ. -/
theorem c9_fence_transparent (b : Str) (loads : Loads) (fsx : List (String × JsonVal))
    (trF trB : TransportResult) (r : CategorizationResult)
    (hrespF : trF.response = fenced b) (hrespB : trB.response = b)
    (hp : trF.provider = trB.provider) (hm : trF.model = trB.model)
    (ht : trF.total_tokens = trB.total_tokens)
    (h1 : b.head? = some '\x7b') (h2 : b.getLast? = some '\x7d')
    (hl : loads b = some (.jobj fsx))
    (hr : parse_categorization_json fsx trB = some r) :
    parse_categorization_response loads trF = parse_categorization_response loads trB := by
  have hF : extract_json_span trF.response = some b := by
    rw [hrespF]
    exact extract_json_span_fenced h1 h2
  have hB : extract_json_span trB.response = some b := by
    rw [hrespB]
    exact extract_json_span_braces h1 h2
  have hjson : parse_categorization_json fsx trF = some r := by
    rw [parse_categorization_json_resp_irrel fsx trF trB hp hm ht]
    exact hr
  rw [parse_cat_response_obj loads trF b fsx hF hl,
    parse_cat_response_obj loads trB b fsx hB hl, hjson, hr]

/-- C9 (witness): fence transparency at the empty-object reply. -/
theorem c9_witness :
    parse_categorization_response c9_loads c9_tr_fenced
      = parse_categorization_response c9_loads c9_tr_bare :=
  c9_fence_transparent c9_body c9_loads [] c9_tr_fenced c9_tr_bare c9_record
    rfl rfl rfl rfl rfl rfl rfl rfl rfl

/-- C10: a reply that decodes to the empty JSON object takes the model
branch with all per-field defaults — category "normal", priority "medium",
title "Untitled Change Request", empty affected_systems, confidence 0.5 —
with provider and model copied from the transport result; it is never
treated as unparseable and never gets the 0.3 rule-based floor. -/
theorem c10_empty_object_defaults (loads : Loads) (mdl prov : String) (it ot tt : Nat)
    (h : loads (lit ("\x7b\x7d")) = some (.jobj [])) :
    parse_categorization_response loads
        { response := lit ("\x7b\x7d"), model := mdl, provider := prov,
          input_tokens := it, output_tokens := ot, total_tokens := tt }
      = { category := lit ("normal"), priority := lit ("medium"),
          title := lit ("Untitled Change Request"), description := [], affected_systems := [],
          confidence := 1/2, reasoning := .jstr [], provider := prov, model := mdl,
          tokens_used := tt } ∧
    ((1 : ℚ)/2) ≠ 3/10 := by
  constructor
  · rw [parse_cat_response_obj loads
      { response := lit ("\x7b\x7d"), model := mdl, provider := prov,
        input_tokens := it, output_tokens := ot, total_tokens := tt }
      (lit ("\x7b\x7d")) []
      (@extract_json_span_braces (lit ("\x7b\x7d")) rfl rfl) h]
    rw [show parse_categorization_json []
        { response := lit ("\x7b\x7d"), model := mdl, provider := prov,
          input_tokens := it, output_tokens := ot, total_tokens := tt }
      = some { category := lit ("normal"), priority := lit ("medium"),
               title := lit ("Untitled Change Request"), description := [],
               affected_systems := [], confidence := min (max (1/2) 0) 1,
               reasoning := .jstr [], provider := prov, model := mdl, tokens_used := tt }
      from rfl]
    show ({ category := lit ("normal"), priority := lit ("medium"),
            title := lit ("Untitled Change Request"), description := [],
            affected_systems := [], confidence := min (max (1/2) 0) 1,
            reasoning := .jstr [], provider := prov, model := mdl,
            tokens_used := tt } : CategorizationResult) = _
    have hc : min (max ((1 : ℚ)/2) 0) 1 = 1/2 := by
      rw [max_def, min_def]
      norm_num
    rw [hc]
  · norm_num

/-- C10 (witness): the default-filled result at a concrete decoder. -/
theorem c10_witness :
    parse_categorization_response c10_loads c10_tr
      = { category := lit ("normal"), priority := lit ("medium"),
          title := lit ("Untitled Change Request"), description := [], affected_systems := [],
          confidence := 1/2, reasoning := .jstr [], provider := "p", model := "m",
          tokens_used := 3 } ∧
    ((1 : ℚ)/2) ≠ 3/10 :=
  c10_empty_object_defaults c10_loads "m" "p" 0 0 3 rfl

end FluxADM
